import Mathlib

namespace BookParser

/-! Shallow embedding of `src/book_parser.py`.

HTTP responses are modelled as records carrying the status code, a flag for
the presence of a `Location` header, the final URL, the parse of the HTML
body, and the raw byte content (modelled as a string).  Side effects (the
issued requests, the output filesystem, sleep calls, error-level log lines,
console output, and — as a ghost trace — the attempted metadata-extraction
calls) are threaded through an explicit state `St`, and Python exceptions are
modelled with `Except PyError`.  The retry loop `while True:` is given fuel;
running out of fuel yields `none` and is distinguished from every real
outcome of the program. -/

/-- Parse of an HTML body, as far as `extract_book_details` inspects it via
BeautifulSoup: whether the `id="content"` region exists, the text of its
first `h1` (if one exists), the `src` attribute of its first `img` (if one
exists), the texts of the `div.texts` comment blocks, and the link texts
inside the `span.d_book` genre container (`none` when that container is
absent). -/
structure PageDoc where
  hasContent : Bool
  h1Text : Option String
  imgSrc : Option String
  commentTexts : List String
  genreSpan : Option (List String)
deriving DecidableEq

/-- An HTTP response as the `requests` library presents it to the program:
status code, whether a `Location` header is present, the final URL, the
parsed HTML document, and the raw body bytes. -/
structure Response where
  status_code : Nat
  has_location : Bool
  url : String
  doc : PageDoc
  content : String
deriving DecidableEq

/-- Model of `requests.Response.is_redirect`: true exactly when a `Location`
header is present and the status code is one of 301, 302, 303, 307, 308
(`REDIRECT_STATI` in the requests library).  In particular it is false for
300 and 304 even though those lie in the 300–399 band. -/
def Response.is_redirect (r : Response) : Bool :=
  r.has_location && (r.status_code == 301 || r.status_code == 302 ||
    r.status_code == 303 || r.status_code == 307 || r.status_code == 308)

/-- Python exceptions that can arise in this program. -/
inductive PyError where
  | connectionError
  | timeoutError
  | httpError
  | valueError (msg : String)
  | typeError
  | attributeError
  | indexError
deriving DecidableEq

/-- Result of one transport call as decided by the environment: a delivered
response, a `requests.ConnectionError`, or a `requests.Timeout`. -/
inductive TransportResult where
  | ok (r : Response)
  | connectionFailure
  | timeoutFailure
deriving DecidableEq

/-- The network environment: the result of the n-th transport call of the
run (calls are numbered globally, in the order they are issued). -/
def Env : Type := Nat → TransportResult

/-- One issued HTTP GET, as recorded in the trace: the URL, the optional
`id` query parameter (the only query parameter the program ever sends), and
whether the requests library was allowed to follow redirects for this call.
Every call in the source passes `timeout=3`. -/
structure Request where
  url : String
  queryId : Option Int
  allow_redirects : Bool
deriving DecidableEq

/-- Observable state of a run: the index of the next transport call, the
trace of issued requests, the output filesystem (path to byte-content map as
an association list), the sleep calls (seconds), the error-level log lines,
the console output, and a ghost trace of the metadata-extraction calls that
were attempted (book id together with the page response passed in). -/
structure St where
  k : Nat
  reqs : List Request
  fs : List (String × String)
  sleeps : List Nat
  logs : List String
  outputs : List String
  extracts : List (Int × Response)
deriving DecidableEq

/-- State/exception monad of the embedding: Python statements transform the
state and may raise; state changes made before a raise persist (as they do
in Python). -/
abbrev M (α : Type) : Type := St → Except PyError α × St

def mpure {α : Type} (a : α) : M α := fun st => (Except.ok a, st)

def mbind {α β : Type} (x : M α) (f : α → M β) : M β := fun st =>
  match x st with
  | (Except.ok a, st') => f a st'
  | (Except.error e, st') => (Except.error e, st')

def mthrow {α : Type} (e : PyError) : M α := fun st => (Except.error e, st)

/-- Model of `try`/`except`: run `x`; on an exception, run the handler from
the state at the point of the raise. -/
def mtry {α : Type} (x : M α) (h : PyError → M α) : M α := fun st =>
  match x st with
  | (Except.ok a, st') => (Except.ok a, st')
  | (Except.error e, st') => h e st'

/-- Model of `requests.get(url, ..., timeout=3, params=...)`: record the
request in the trace, consume the next transport result from the
environment, and raise `ConnectionError`/`Timeout` on transport failure. -/
def requests_get (env : Env) (url : String) (queryId : Option Int)
    (allow : Bool) : M Response := fun st =>
  let st' : St := { st with k := st.k + 1,
                            reqs := st.reqs ++ [⟨url, queryId, allow⟩] }
  match env st.k with
  | TransportResult.ok r => (Except.ok r, st')
  | TransportResult.connectionFailure => (Except.error PyError.connectionError, st')
  | TransportResult.timeoutFailure => (Except.error PyError.timeoutError, st')

/-- Model of `requests.Response.raise_for_status`: raise `HTTPError` exactly
for status codes 400–599. -/
def Response.raise_for_status (r : Response) : M Unit :=
  if 400 ≤ r.status_code ∧ r.status_code < 600 then mthrow PyError.httpError
  else mpure ()

/-- `request_for_book` (lines 45–73): GET with `allow_redirects=False`, then
`raise_for_status`, then an info-level log (invisible here: `main` configures
logging at ERROR level, so `logger.info` emits nothing), then return the
response. -/
def request_for_book (env : Env) (url : String) (queryId : Option Int)
    (_log_message : String) : M Response :=
  mbind (requests_get env url queryId false) fun book_response =>
  mbind book_response.raise_for_status fun _ =>
  mpure book_response

/-- `check_for_redirect` (lines 76–90): raise `ValueError(book_error)` when
`response.is_redirect` holds. -/
def check_for_redirect (response : Response) (book_error : String) : M Unit :=
  if response.is_redirect then mthrow (PyError.valueError book_error)
  else mpure ()

/-- Python list indexing `l[i]` for a non-negative literal index: the value,
or `IndexError` when the index is out of range. -/
def pyGet {α : Type} (l : List α) (i : Nat) : Except PyError α :=
  match l.get? i with
  | some a => Except.ok a
  | none => Except.error PyError.indexError

/-- When `pre` is a prefix of `s`, the remainder of `s` after it. -/
def dropPre? : List Char → List Char → Option (List Char)
  | [], s => some s
  | _ :: _, [] => none
  | c :: cs, d :: ds => if c = d then dropPre? cs ds else none

/-- Split a character list on the first occurrences of a non-empty
separator, left to right and non-overlapping; the fuel is an upper bound on
the characters still to be scanned (one unit is spent per consumed
character, so `s.length` fuel always suffices). -/
def splitChAux (sep : List Char) : Nat → List Char → List (List Char)
  | _, [] => [[]]
  | 0, s => [s]
  | fuel + 1, c :: rest =>
    match dropPre? sep (c :: rest) with
    | some rest' => [] :: splitChAux sep fuel rest'
    | none =>
      match splitChAux sep fuel rest with
      | [] => [[c]]
      | seg :: segs => (c :: seg) :: segs

/-- Model of Python `s.split(sep)` for a non-empty separator: split on each
non-overlapping occurrence of `sep`, keeping empty segments (the program
never calls `split` with an empty separator, which Python rejects). -/
def pysplit (s sep : String) : List String :=
  if sep.data.isEmpty then [s]
  else (splitChAux sep.data s.data.length s.data).map String.mk

/-- Whether `pre` is a prefix of `s`. -/
def pystartswith (s pre : String) : Bool := (dropPre? pre.data s.data).isSome

/-- Join a list of strings with a separator between consecutive elements. -/
def joinSep (sep : String) : List String → String
  | [] => ""
  | [x] => x
  | x :: xs => x ++ sep ++ joinSep sep xs

/-- Scheme split of an absolute URL: `"s://rest"` into `(s, rest)`. -/
def schemeSplit (url : String) : Option (String × String) :=
  match pysplit url "://" with
  | [s, rest] => some (s, rest)
  | _ => none

/-- Network-location part of the remainder of an absolute URL. -/
def netlocOf (rest : String) : String :=
  String.mk (rest.data.takeWhile (fun c => c != '/'))

/-- Path part of the remainder of an absolute URL: from the first `/` on,
with any query and fragment stripped. -/
def pathOf (rest : String) : String :=
  ((pysplit ((pysplit (String.mk (rest.data.dropWhile (fun c => c != '/'))) "?").headD "") "#").headD "")

/-- Model of `urllib.parse.urlsplit(url)[2]` (the path component),
restricted to URLs that are either absolute (`scheme://netloc[/path]`) or
scheme-less (then the whole string, minus query and fragment, is the path). -/
def urlsplit_path (url : String) : String :=
  match schemeSplit url with
  | some (_, rest) => pathOf rest
  | none => ((pysplit ((pysplit url "?").headD "") "#").headD "")

/-- Directory prefix of a path, up to and including the last `/`. -/
def dirOfPath (p : String) : String :=
  match (pysplit p "/").dropLast with
  | [] => "/"
  | parts => joinSep "/" parts ++ "/"

/-- Model of `urllib.parse.urljoin(base, src)` restricted to the shapes the
program produces: absolute base URL; `src` either absolute itself,
root-relative (leading `/`, replacing the base path), or relative (resolved
against the directory of the base path); no dot-segment normalization and a
non-empty `src`. -/
def urljoin (base src : String) : String :=
  match schemeSplit src with
  | some _ => src
  | none =>
    match schemeSplit base with
    | some (scheme, rest) =>
      if pystartswith src "/" then scheme ++ "://" ++ netlocOf rest ++ src
      else scheme ++ "://" ++ netlocOf rest ++ dirOfPath (pathOf rest) ++ src
    | none => src

/-- Model of `os.path.join(dir, seg)` on POSIX for a non-empty `dir` that
does not end in `/`: `seg` alone when absolute, else `dir ++ "/" ++ seg`. -/
def os_path_join (dir seg : String) : String :=
  if pystartswith seg "/" then seg else dir ++ "/" ++ seg

/-- The non-breaking space U+00A0, the separator of the `h1` header text. -/
def nbsp : String := "\u00A0"

/-- A book record as built by `extract_book_details` (the dictionary of
lines 108–114). -/
structure Book where
  id : Int
  title : String
  author : String
  img : String
  comments : List String
  genres : List String
deriving DecidableEq

/-- The comment list comprehension of line 112, evaluated left to right:
`[book_comment.text.split(')')[1] for book_comment in soup.find_all('div',
class_='texts')]`; the first comment text without a `)` raises
`IndexError`. -/
def comment_bodies : List String → Except PyError (List String)
  | [] => Except.ok []
  | t :: ts =>
    match pyGet (pysplit t ")") 1 with
    | Except.error e => Except.error e
    | Except.ok c =>
      match comment_bodies ts with
      | Except.error e => Except.error e
      | Except.ok cs => Except.ok (c :: cs)

/-- `extract_book_details` (lines 93–115) as defined — two parameters.
Evaluation follows the source order: `soup.find(id='content')` is `None`
when the content region is absent and `None.find` raises `AttributeError`;
likewise a missing `h1` raises `AttributeError` at `.text`; `book_header[0]`
and `book_header[2]` raise `IndexError` when out of range; a missing `img`
raises `TypeError` at `None['src']`; each comment text is split on `)` and
indexed at 1 (`IndexError` when no `)` occurs); a missing `span.d_book`
raises `AttributeError`. -/
def extract_book_details (book_response : Response) (book_id : Int) :
    Except PyError Book :=
  if !book_response.doc.hasContent then Except.error PyError.attributeError
  else match book_response.doc.h1Text with
  | none => Except.error PyError.attributeError
  | some h1 =>
    match pyGet (pysplit h1 nbsp) 0 with
    | Except.error e => Except.error e
    | Except.ok title =>
      match pyGet (pysplit h1 nbsp) 2 with
      | Except.error e => Except.error e
      | Except.ok author =>
        match book_response.doc.imgSrc with
        | none => Except.error PyError.typeError
        | some src =>
          match comment_bodies book_response.doc.commentTexts with
          | Except.error e => Except.error e
          | Except.ok comments =>
            match book_response.doc.genreSpan with
            | none => Except.error PyError.attributeError
            | some genres =>
              Except.ok { id := book_id, title := title, author := author,
                          img := urljoin book_response.url src,
                          comments := comments, genres := genres }

/-- The call at line 187, `extract_book_details(book_response, book_id,
book_response.url)`: three positional arguments are passed to a function
defined with exactly two parameters, so Python raises `TypeError` at the
call site, before the function body runs.  The ghost `extracts` trace
records the attempted call. -/
def extract_book_details_line187 (book_response : Response) (book_id : Int)
    (_url : String) : M Book := fun st =>
  (Except.error PyError.typeError,
   { st with extracts := st.extracts ++ [(book_id, book_response)] })

/-- Overwriting file write: `open(path, 'wb')` truncates, so the new content
replaces any previous entry at the same path. -/
def fsWrite (fs : List (String × String)) (path content : String) :
    List (String × String) :=
  fs.filter (fun e => e.1 != path) ++ [(path, content)]

/-- `save_book_text` (lines 118–137): write the response body to
`f'{dir_name}/{book_id}. {book_title}.txt'` and return that filename. -/
def save_book_text (dir_name : String) (book_title : String)
    (response : Response) (book_id : Int) : M String := fun st =>
  let filename := dir_name ++ "/" ++ toString book_id ++ ". " ++ book_title ++ ".txt"
  (Except.ok filename, { st with fs := fsWrite st.fs filename response.content })

/-- `download_book_cover` (lines 140–161): GET the full image URL — with the
requests default `allow_redirects=True`, since the call passes no
`allow_redirects` argument — then `raise_for_status`, then write the body to
`os.path.join(dir_name, book_img_url_path.split('/')[2])`. -/
def download_book_cover (env : Env) (book_img_url_path : String)
    (dir_name : String) (book_image_full_url : String) : M String :=
  mbind (requests_get env book_image_full_url none true) fun response =>
  mbind response.raise_for_status fun _ =>
  mbind (fun st => (pyGet (pysplit book_img_url_path "/") 2, st)) fun seg =>
  fun st =>
    let filename := os_path_join dir_name seg
    (Except.ok filename, { st with fs := fsWrite st.fs filename response.content })

def logError (msg : String) : M Unit := fun st =>
  (Except.ok (), { st with logs := st.logs ++ [msg] })

def doSleep (n : Nat) : M Unit := fun st =>
  (Except.ok (), { st with sleeps := st.sleeps ++ [n] })

def printOut (s : String) : M Unit := fun st =>
  (Except.ok (), { st with outputs := st.outputs ++ [s] })

def main_page_url : String := "https://tululu.org/"

/-- URL of the page of one book, `f'{main_page_url}b{book_id}/'`. -/
def pageUrl (book_id : Int) : String :=
  main_page_url ++ "b" ++ toString book_id ++ "/"

/-- URL of the text-download endpoint, `f'{main_page_url}txt.php'`. -/
def txtUrl : String := main_page_url ++ "txt.php"

def pageNotFoundMsg : String := "Страница книги с данным id не найдена\n"

def textUnavailableMsg : String :=
  "На странице данной книги недоступен файл текста для скачивания\n"

def connErrMsg : String := "Ошибка подключения, проверьте доступ в интернет"

def timeoutMsg : String := "Время ожидания ответа превышено"

/-- The request issued for the page of one book. -/
def pageReq (book_id : Int) : Request := ⟨pageUrl book_id, none, false⟩

/-- The body of the `try:` block of `main` (lines 184–198) for one book id:
page fetch, redirect check, the three-argument metadata-extraction call,
text fetch with `params={'id': book_id}`, redirect check, text save, cover
download, success print. -/
def tryBody (env : Env) (book_id : Int) : M Unit :=
  mbind (request_for_book env (pageUrl book_id) none "Запрос страницы книги")
    fun book_response =>
  mbind (check_for_redirect book_response pageNotFoundMsg) fun _ =>
  mbind (extract_book_details_line187 book_response book_id book_response.url)
    fun book =>
  mbind (request_for_book env txtUrl (some book_id)
    "Запрос страницы скачивания текста книги") fun book_download_response =>
  mbind (check_for_redirect book_download_response textUnavailableMsg) fun _ =>
  mbind (save_book_text "books" book.title book_download_response book.id) fun _ =>
  mbind (download_book_cover env (urlsplit_path book.img) "images" book.img) fun _ =>
  printOut ("Название: " ++ book.title ++ "\nАвтор: " ++ book.author ++ "\n")

/-- Terminal outcome of one identifier, in the spec's vocabulary: `saved`
when the `try:` body ran to its `break`, `skipped msg` when a `ValueError`
(the absence signal) was caught and the loop broke. -/
inductive Outcome where
  | saved
  | skipped (msg : String)
deriving DecidableEq

inductive LoopStep where
  | done (o : Outcome)
  | retry
deriving DecidableEq

/-- The `except` clauses of `main` (lines 199–206): `ConnectionError` ⇒ log,
sleep 3 seconds, retry; `Timeout` ⇒ log, retry immediately; `ValueError` ⇒
log the message and break with a skipped outcome; every other exception is
unhandled and propagates, aborting the whole run. -/
def handleErr (e : PyError) : M LoopStep :=
  match e with
  | PyError.connectionError =>
    mbind (logError connErrMsg) fun _ =>
    mbind (doSleep 3) fun _ => mpure LoopStep.retry
  | PyError.timeoutError =>
    mbind (logError timeoutMsg) fun _ => mpure LoopStep.retry
  | PyError.valueError msg =>
    mbind (logError msg) fun _ => mpure (LoopStep.done (Outcome.skipped msg))
  | e => mthrow e

/-- The `while True:` retry loop of `main` (lines 182–207) for one book id,
with fuel: `none` means the fuel ran out before the loop reached `break`. -/
def bookLoop (env : Env) (book_id : Int) : Nat → M (Option Outcome)
  | 0 => mpure none
  | n + 1 =>
    mbind (mtry (mbind (tryBody env book_id)
        fun _ => mpure (LoopStep.done Outcome.saved)) handleErr) fun step =>
    match step with
    | LoopStep.done o => mpure (some o)
    | LoopStep.retry => bookLoop env book_id n

/-- The identifier range of `main`: `range(first_book_id, last_book_id + 1)`. -/
def idRange (first last : Int) : List Int :=
  (List.range (last + 1 - first).toNat).map (fun i => first + Int.ofNat i)

/-- The `for book_id in range(...)` loop of `main`: one outcome per id, in
order; `none` when some id's retry loop ran out of fuel. -/
def runIds (env : Env) (fuel : Nat) : List Int → M (Option (List (Int × Outcome)))
  | [] => mpure (some [])
  | bid :: rest =>
    mbind (bookLoop env bid fuel) fun o? =>
    match o? with
    | none => mpure none
    | some o =>
      mbind (runIds env fuel rest) fun rest? =>
      match rest? with
      | none => mpure none
      | some os => mpure (some ((bid, o) :: os))

def initSt : St :=
  { k := 0, reqs := [], fs := [], sleeps := [], logs := [], outputs := [],
    extracts := [] }

/-- `main` (lines 164–207) after argument parsing and directory creation:
run the inclusive identifier range against the transport environment,
starting from the empty observable state.  The first component is the
Python-level result: an uncaught exception aborts the run with
`Except.error`, a completed run yields the outcome list. -/
def pyMain (env : Env) (fuel : Nat) (start_id end_id : Int) :
    Except PyError (Option (List (Int × Outcome))) × St :=
  runIds env fuel (idRange start_id end_id) initSt

/-- State after the page request for one book id was issued (the transport
call was recorded and the call counter advanced). -/
def stPage (st : St) (book_id : Int) : St :=
  { st with k := st.k + 1, reqs := st.reqs ++ [pageReq book_id] }

/-- State after the page request succeeded, the redirect check passed, and
the three-argument extraction call was attempted (and raised `TypeError`). -/
def stExtract (st : St) (book_id : Int) (r : Response) : St :=
  { stPage st book_id with extracts := st.extracts ++ [(book_id, r)] }

/-- A well-formed book page, with the h1 text of the spec's end-to-end
scenario: `"Foo Bar Baz"` and cover src `/files/5/img.jpg`. -/
def fooDoc : PageDoc :=
  { hasContent := true, h1Text := some "Foo\u00A0Bar\u00A0Baz",
    imgSrc := some "/files/5/img.jpg", commentTexts := [], genreSpan := some [] }

/-- A plain 200 response delivering the well-formed page for one book id. -/
def respOk (book_id : Int) : Response :=
  { status_code := 200, has_location := false, url := pageUrl book_id,
    doc := fooDoc, content := "TEXT" }

/-- Environment in which every transport call succeeds with a 200 page. -/
def envAllOk : Env := fun _ => TransportResult.ok (respOk 1)

/-- A response with status 300 and a `Location` header: it carries a
redirect status in the 300–399 band, yet `requests` does not classify it as
a redirect (300 is not in `REDIRECT_STATI`). -/
def c1resp : Response :=
  { status_code := 300, has_location := true, url := pageUrl 1,
    doc := fooDoc, content := "" }

def c1env : Env := fun _ => TransportResult.ok c1resp

/-- An ordinary 302 redirect with a `Location` header, as the catalog site
answers for an absent id. -/
def redirectResp : Response :=
  { status_code := 302, has_location := true, url := pageUrl 1,
    doc := fooDoc, content := "" }

def redirectEnv : Env := fun _ => TransportResult.ok redirectResp

/-- A successfully fetched page whose HTML lacks the expected title element
(the `id="content"` region has no `h1`). -/
def c2doc : PageDoc :=
  { hasContent := true, h1Text := none, imgSrc := some "/shots/7.jpg",
    commentTexts := [], genreSpan := some [] }

def c2resp : Response :=
  { status_code := 200, has_location := false, url := pageUrl 7,
    doc := c2doc, content := "" }

def c2env : Env := fun _ => TransportResult.ok c2resp

/-- A connection failure on the first transport call, then steady success. -/
def c5env : Env := fun k =>
  match k with
  | 0 => TransportResult.connectionFailure
  | _ => TransportResult.ok (respOk 1)

/-- A timeout on the first transport call, then steady success. -/
def c5tenv : Env := fun k =>
  match k with
  | 0 => TransportResult.timeoutFailure
  | _ => TransportResult.ok (respOk 1)

/-- A page whose h1 text begins with the non-breaking-space separator, so
segment 0 — the parsed title — is the empty string. -/
def c10doc : PageDoc :=
  { hasContent := true, h1Text := some "\u00A0Bar\u00A0Baz",
    imgSrc := some "/shots/9.jpg", commentTexts := [], genreSpan := some [] }

def c10resp : Response :=
  { status_code := 200, has_location := false, url := pageUrl 9,
    doc := c10doc, content := "" }

lemma redirect_status_lt {r : Response} (h : r.is_redirect = true) :
    r.status_code < 400 := by
  unfold Response.is_redirect at h
  simp only [Bool.and_eq_true, Bool.or_eq_true, beq_iff_eq] at h
  have h5 : (((r.status_code = 301 ∨ r.status_code = 302) ∨ r.status_code = 303) ∨
      r.status_code = 307) ∨ r.status_code = 308 := h.2
  omega

lemma tryBody_conn {env : Env} {st : St} (book_id : Int)
    (h : env st.k = TransportResult.connectionFailure) :
    tryBody env book_id st = (Except.error PyError.connectionError, stPage st book_id) := by
  simp [tryBody, request_for_book, requests_get, mbind, stPage, pageReq, h]

lemma tryBody_timeout {env : Env} {st : St} (book_id : Int)
    (h : env st.k = TransportResult.timeoutFailure) :
    tryBody env book_id st = (Except.error PyError.timeoutError, stPage st book_id) := by
  simp [tryBody, request_for_book, requests_get, mbind, stPage, pageReq, h]

lemma tryBody_http {env : Env} {st : St} {r : Response} (book_id : Int)
    (h : env st.k = TransportResult.ok r)
    (h4 : 400 ≤ r.status_code ∧ r.status_code < 600) :
    tryBody env book_id st = (Except.error PyError.httpError, stPage st book_id) := by
  simp [tryBody, request_for_book, requests_get, Response.raise_for_status,
    mbind, mthrow, mpure, stPage, pageReq, h, h4]

lemma tryBody_redirect {env : Env} {st : St} {r : Response} (book_id : Int)
    (h : env st.k = TransportResult.ok r) (hr : r.is_redirect = true) :
    tryBody env book_id st =
      (Except.error (PyError.valueError pageNotFoundMsg), stPage st book_id) := by
  have h4 : ¬ (400 ≤ r.status_code ∧ r.status_code < 600) := by
    have := redirect_status_lt hr
    omega
  simp [tryBody, request_for_book, requests_get, Response.raise_for_status,
    check_for_redirect, mbind, mthrow, mpure, stPage, pageReq, h, h4, hr]

lemma tryBody_extract {env : Env} {st : St} {r : Response} (book_id : Int)
    (h : env st.k = TransportResult.ok r)
    (h4 : ¬ (400 ≤ r.status_code ∧ r.status_code < 600))
    (hr : r.is_redirect = false) :
    tryBody env book_id st = (Except.error PyError.typeError, stExtract st book_id r) := by
  simp [tryBody, request_for_book, requests_get, Response.raise_for_status,
    check_for_redirect, extract_book_details_line187, mbind, mthrow, mpure,
    stPage, stExtract, pageReq, h, h4, hr]

/-- Whatever the environment does, the `try:` body of one iteration raises:
the three-argument extraction call (or an earlier step) always throws. -/
lemma tryBody_error (env : Env) (book_id : Int) (st : St) :
    ∃ e st', tryBody env book_id st = (Except.error e, st') := by
  rcases h : env st.k with r | hc | ht
  · by_cases h4 : 400 ≤ r.status_code ∧ r.status_code < 600
    · exact ⟨_, _, tryBody_http book_id h h4⟩
    · by_cases hr : r.is_redirect = true
      · exact ⟨_, _, tryBody_redirect book_id h hr⟩
      · exact ⟨_, _, tryBody_extract book_id h h4 (by simpa using hr)⟩
  · exact ⟨_, _, tryBody_conn book_id h⟩
  · exact ⟨_, _, tryBody_timeout book_id h⟩

lemma bookLoop_conn {env : Env} {st : St} (book_id : Int) (n : Nat)
    (h : env st.k = TransportResult.connectionFailure) :
    bookLoop env book_id (n + 1) st =
      bookLoop env book_id n
        { st with k := st.k + 1, reqs := st.reqs ++ [pageReq book_id],
                  logs := st.logs ++ [connErrMsg], sleeps := st.sleeps ++ [3] } := by
  simp only [bookLoop]
  simp [mbind, mtry, tryBody_conn book_id h, handleErr, logError, doSleep,
    mpure, stPage]

lemma bookLoop_timeout {env : Env} {st : St} (book_id : Int) (n : Nat)
    (h : env st.k = TransportResult.timeoutFailure) :
    bookLoop env book_id (n + 1) st =
      bookLoop env book_id n
        { st with k := st.k + 1, reqs := st.reqs ++ [pageReq book_id],
                  logs := st.logs ++ [timeoutMsg] } := by
  simp only [bookLoop]
  simp [mbind, mtry, tryBody_timeout book_id h, handleErr, logError, mpure, stPage]

lemma bookLoop_http {env : Env} {st : St} {r : Response} (book_id : Int) (n : Nat)
    (h : env st.k = TransportResult.ok r)
    (h4 : 400 ≤ r.status_code ∧ r.status_code < 600) :
    bookLoop env book_id (n + 1) st =
      (Except.error PyError.httpError, stPage st book_id) := by
  simp only [bookLoop]
  simp [mbind, mtry, tryBody_http book_id h h4, handleErr, mthrow]

lemma bookLoop_redirect {env : Env} {st : St} {r : Response} (book_id : Int) (n : Nat)
    (h : env st.k = TransportResult.ok r) (hr : r.is_redirect = true) :
    bookLoop env book_id (n + 1) st =
      (Except.ok (some (Outcome.skipped pageNotFoundMsg)),
        { stPage st book_id with logs := st.logs ++ [pageNotFoundMsg] }) := by
  simp only [bookLoop]
  simp [mbind, mtry, tryBody_redirect book_id h hr, handleErr, logError,
    mpure, stPage]

lemma bookLoop_extract_abort {env : Env} {st : St} {r : Response} (book_id : Int) (n : Nat)
    (h : env st.k = TransportResult.ok r)
    (h4 : ¬ (400 ≤ r.status_code ∧ r.status_code < 600))
    (hr : r.is_redirect = false) :
    bookLoop env book_id (n + 1) st =
      (Except.error PyError.typeError, stExtract st book_id r) := by
  simp only [bookLoop]
  simp [mbind, mtry, tryBody_extract book_id h h4 hr, handleErr, mthrow]

/-- No amount of fuel can drive the retry loop of one identifier to the
`saved` outcome: the `try:` body always raises before the `break`. -/
lemma bookLoop_not_saved :
    ∀ (n : Nat) (env : Env) (book_id : Int) (st : St) (o : Outcome),
      (bookLoop env book_id n st).1 = Except.ok (some o) → o ≠ Outcome.saved := by
  intro n
  induction n with
  | zero => intro env book_id st o h; simp [bookLoop, mpure] at h
  | succ n ih =>
    intro env book_id st o h
    obtain ⟨e, st', htb⟩ := tryBody_error env book_id st
    simp only [bookLoop] at h
    simp only [mbind, mtry, htb, mpure] at h
    cases e with
    | connectionError =>
      simp only [handleErr, mbind, logError, doSleep, mpure] at h
      exact ih env book_id _ o h
    | timeoutError =>
      simp only [handleErr, mbind, logError, mpure] at h
      exact ih env book_id _ o h
    | valueError msg =>
      simp only [handleErr, mbind, logError, mpure] at h
      cases h with
      | refl => exact fun hc => by cases hc
    | httpError => simp [handleErr, mthrow] at h
    | typeError => simp [handleErr, mthrow] at h
    | attributeError => simp [handleErr, mthrow] at h
    | indexError => simp [handleErr, mthrow] at h

/-- No completed run contains a `saved` outcome. -/
lemma runIds_not_saved :
    ∀ (ids : List Int) (env : Env) (fuel : Nat) (st : St)
      (l : List (Int × Outcome)),
      (runIds env fuel ids st).1 = Except.ok (some l) →
      ∀ p ∈ l, p.2 ≠ Outcome.saved := by
  intro ids
  induction ids with
  | nil =>
    intro env fuel st l h p hp
    simp [runIds, mpure] at h
    subst h
    simp at hp
  | cons bid rest ih =>
    intro env fuel st l h p hp
    rcases hb : bookLoop env bid fuel st with ⟨res, st'⟩
    simp only [runIds, mbind, hb] at h
    cases res with
    | error e => simp at h
    | ok o? =>
      cases o? with
      | none => simp [mpure] at h
      | some o =>
        rcases hr : runIds env fuel rest st' with ⟨res2, st''⟩
        simp only [mbind, hr, mpure] at h
        cases res2 with
        | error e => simp at h
        | ok l2? =>
          cases l2? with
          | none => simp [mpure] at h
          | some os =>
            simp [mpure] at h
            subst h
            rw [List.mem_cons] at hp
            rcases hp with hp | hp
            · subst hp
              exact bookLoop_not_saved fuel env bid st o (by rw [hb])
            · exact ih env fuel st' os (by rw [hr]) p hp

lemma idRange_cons {s e : Int} (h : s ≤ e) :
    idRange s e = s :: idRange (s + 1) e := by
  unfold idRange
  have h1 : (e + 1 - s).toNat = (e + 1 - (s + 1)).toNat + 1 := by omega
  rw [h1, List.range_succ_eq_map]
  simp only [List.map_cons, List.map_map]
  congr 1
  · simp
  · apply List.map_congr_left
    intro i _
    simp only [Function.comp_apply, Nat.succ_eq_add_one, Int.ofNat_eq_natCast]
    push_cast
    ring

lemma pyGet_ok {α : Type} {l : List α} {i : Nat} {a : α}
    (h : pyGet l i = Except.ok a) (d : α) : l.getD i d = a ∧ i < l.length := by
  unfold pyGet at h
  cases hg : l.get? i with
  | none => rw [hg] at h; cases h
  | some b =>
    rw [hg] at h
    cases h
    have hg' : l[i]? = some a := by rw [← List.get?_eq_getElem?]; exact hg
    refine ⟨by simp [List.getD_eq_getElem?_getD, hg'], ?_⟩
    obtain ⟨hlt, -⟩ := List.get?_eq_some.mp hg
    exact hlt

lemma pyGet_of_lt {α : Type} {l : List α} {i : Nat} (h : i < l.length) (d : α) :
    pyGet l i = Except.ok (l.getD i d) := by
  unfold pyGet
  cases hg : l.get? i with
  | none =>
    rw [List.get?_eq_none] at hg
    omega
  | some a =>
    have hg' : l[i]? = some a := by rw [← List.get?_eq_getElem?]; exact hg
    simp [List.getD_eq_getElem?_getD, hg']

lemma comment_bodies_ok :
    ∀ (cs : List String), (∀ c ∈ cs, 2 ≤ (pysplit c ")").length) →
      ∃ out, comment_bodies cs = Except.ok out := by
  intro cs
  induction cs with
  | nil => intro _; exact ⟨[], rfl⟩
  | cons c cs ih =>
    intro hw
    obtain ⟨out, hout⟩ := ih (fun x hx => hw x (List.mem_cons_of_mem c hx))
    have hlt : 1 < (pysplit c ")").length := by
      have := hw c (List.mem_cons_self c cs)
      omega
    refine ⟨(pysplit c ")").getD 1 "" :: out, ?_⟩
    unfold comment_bodies
    rw [pyGet_of_lt hlt "", hout]

/-- Whenever `extract_book_details` returns a record, its title and author
are segments 0 and 2 of the h1 text split on the non-breaking space. -/
lemma extract_ok_title_author {r : Response} {book_id : Int} {t : String} {b : Book}
    (ht : r.doc.h1Text = some t) (h : extract_book_details r book_id = Except.ok b) :
    3 ≤ (pysplit t nbsp).length ∧
      b.title = (pysplit t nbsp).getD 0 "" ∧
      b.author = (pysplit t nbsp).getD 2 "" := by
  unfold extract_book_details at h
  cases hc : r.doc.hasContent with
  | false => simp [hc] at h
  | true =>
    simp only [hc, Bool.not_true, Bool.false_eq_true, if_false, ht] at h
    cases h0 : pyGet (pysplit t nbsp) 0 with
    | error e => simp only [h0] at h; cases h
    | ok ttl =>
      simp only [h0] at h
      cases h2 : pyGet (pysplit t nbsp) 2 with
      | error e => simp only [h2] at h; cases h
      | ok auth =>
        simp only [h2] at h
        cases hi : r.doc.imgSrc with
        | none => simp only [hi] at h; cases h
        | some src =>
          simp only [hi] at h
          cases hm : comment_bodies r.doc.commentTexts with
          | error e => simp only [hm] at h; cases h
          | ok cmts =>
            simp only [hm] at h
            cases hg : r.doc.genreSpan with
            | none => simp only [hg] at h; cases h
            | some gl =>
              simp only [hg] at h
              cases h
              obtain ⟨he0, -⟩ := pyGet_ok h0 ""
              obtain ⟨he2, hlen⟩ := pyGet_ok h2 ""
              exact ⟨hlen, he0.symm, he2.symm⟩

/-- On a well-formed page, `extract_book_details` succeeds and returns
segments 0 and 2 of the h1 text as title and author. -/
lemma extract_total {r : Response} {t src : String} {gl : List String} (book_id : Int)
    (hc : r.doc.hasContent = true) (ht : r.doc.h1Text = some t)
    (hlen : 3 ≤ (pysplit t nbsp).length) (hi : r.doc.imgSrc = some src)
    (hg : r.doc.genreSpan = some gl)
    (hcm : ∀ c ∈ r.doc.commentTexts, 2 ≤ (pysplit c ")").length) :
    ∃ b, extract_book_details r book_id = Except.ok b ∧
      b.title = (pysplit t nbsp).getD 0 "" ∧
      b.author = (pysplit t nbsp).getD 2 "" := by
  obtain ⟨cmts, hcmts⟩ := comment_bodies_ok r.doc.commentTexts hcm
  refine ⟨{ id := book_id, title := (pysplit t nbsp).getD 0 "",
            author := (pysplit t nbsp).getD 2 "",
            img := urljoin r.url src, comments := cmts, genres := gl },
    ?_, rfl, rfl⟩
  unfold extract_book_details
  simp only [hc, Bool.not_true, Bool.false_eq_true, if_false, ht,
    pyGet_of_lt (by omega : 0 < (pysplit t nbsp).length) "",
    pyGet_of_lt (by omega : 2 < (pysplit t nbsp).length) "", hi, hcmts, hg]

/-- Every metadata-extraction attempt made by the retry loop is on a page
response that passed `raise_for_status` and was not classified a redirect. -/
lemma bookLoop_extracts :
    ∀ (n : Nat) (env : Env) (book_id : Int) (st : St),
      ∃ l, (bookLoop env book_id n st).2.extracts = st.extracts ++ l ∧
        ∀ p ∈ l, p.2.is_redirect = false ∧
          ¬ (400 ≤ p.2.status_code ∧ p.2.status_code < 600) := by
  intro n
  induction n with
  | zero => intro env book_id st; exact ⟨[], by simp [bookLoop, mpure], by simp⟩
  | succ n ih =>
    intro env book_id st
    rcases h : env st.k with r | hc | htm
    · by_cases h4 : 400 ≤ r.status_code ∧ r.status_code < 600
      · exact ⟨[], by simp [bookLoop_http book_id n h h4, stPage], by simp⟩
      · by_cases hr : r.is_redirect = true
        · exact ⟨[], by simp [bookLoop_redirect book_id n h hr, stPage], by simp⟩
        · have hr' : r.is_redirect = false := by simpa using hr
          refine ⟨[(book_id, r)], ?_, ?_⟩
          · simp [bookLoop_extract_abort book_id n h h4 hr', stExtract, stPage]
          · intro p hp
            rw [List.mem_singleton] at hp
            subst hp
            exact ⟨hr', h4⟩
    · obtain ⟨l, hl, hpl⟩ := ih env book_id
        { st with k := st.k + 1, reqs := st.reqs ++ [pageReq book_id],
                  logs := st.logs ++ [connErrMsg], sleeps := st.sleeps ++ [3] }
      exact ⟨l, by rw [bookLoop_conn book_id n h, hl], hpl⟩
    · obtain ⟨l, hl, hpl⟩ := ih env book_id
        { st with k := st.k + 1, reqs := st.reqs ++ [pageReq book_id],
                  logs := st.logs ++ [timeoutMsg] }
      exact ⟨l, by rw [bookLoop_timeout book_id n h, hl], hpl⟩

/-- The record that `extract_book_details` builds from the page whose h1
text begins with the separator: its title is the empty string. -/
def c10book : Book :=
  { id := 9, title := "", author := "Baz",
    img := urljoin (pageUrl 9) "/shots/9.jpg", comments := [], genres := [] }

/-- C1 (counterexample): a response with status 300 — squarely in the
300–399 band — and a `Location` header is not classified as a redirect by
`requests`, so the guard lets it through; the run then aborts with the
uncaught `TypeError` of the three-argument extraction call instead of
producing a `SkippedNotFound` outcome. -/
theorem c1_counterexample :
    (300 ≤ c1resp.status_code ∧ c1resp.status_code ≤ 399) ∧
    c1env 0 = TransportResult.ok c1resp ∧
    (pyMain c1env 3 1 1).1 = Except.error PyError.typeError ∧
    (pyMain c1env 3 1 1).2.fs = [] ∧
    (pyMain c1env 3 1 1).1 ≠
      Except.ok (some [(1, Outcome.skipped pageNotFoundMsg)]) := by
  refine ⟨by decide, rfl, by rfl, by rfl, ?_⟩
  intro hc
  have he : (pyMain c1env 3 1 1).1 = Except.error PyError.typeError := by rfl
  rw [he] at hc
  exact Except.noConfusion hc

/-- C1 (amended): for every identifier whose page fetch returns a response
that `requests` classifies as a redirect — status in {301, 302, 303, 307,
308} together with a `Location` header — the loop ends with the
skipped-as-not-found outcome and neither a text file nor a cover file is
written for that identifier. -/
theorem c1_redirect_skip :
    ∀ (env : Env) (st : St) (book_id : Int) (n : Nat) (r : Response),
      env st.k = TransportResult.ok r → r.is_redirect = true →
      ∃ st', bookLoop env book_id (n + 1) st =
          (Except.ok (some (Outcome.skipped pageNotFoundMsg)), st') ∧
        st'.fs = st.fs ∧ st'.outputs = st.outputs := by
  intro env st book_id n r h hr
  refine ⟨_, bookLoop_redirect book_id n h hr, ?_, ?_⟩ <;> simp [stPage]

/-- C1 (witness): instantiating the amended statement on a concrete 302
redirect with a `Location` header. -/
theorem c1_redirect_skip_witness :
    ∃ st', bookLoop redirectEnv 1 1 initSt =
        (Except.ok (some (Outcome.skipped pageNotFoundMsg)), st') ∧
      st'.fs = initSt.fs ∧ st'.outputs = initSt.outputs :=
  c1_redirect_skip redirectEnv initSt 1 0 redirectResp rfl rfl

/-- C2: on a successfully fetched page whose HTML lacks the title element,
the two-parameter extractor raises `AttributeError`; the loop's handler
re-raises everything except `ConnectionError`, `Timeout` and `ValueError`;
and the actual run over the range [7, 8] aborts with the uncaught
`TypeError` of the three-argument call during identifier 7, so identifier 8
is never processed — the failure is not contained to one identifier. -/
theorem c2_uncontained_failure :
    extract_book_details c2resp 7 = Except.error PyError.attributeError ∧
    handleErr PyError.attributeError initSt =
      (Except.error PyError.attributeError, initSt) ∧
    idRange 7 8 = [7, 8] ∧
    (pyMain c2env 3 7 8).1 = Except.error PyError.typeError := by
  exact ⟨rfl, rfl, by decide, by rfl⟩

/-- C3: the call `extract_book_details(book_response, book_id,
book_response.url)` at line 187 passes three positional arguments to a
two-parameter function, so it raises `TypeError`; no handler of the loop
catches `TypeError`.  Consequently (a) no completed run ever contains a
`Saved` outcome, and (b) as soon as some identifier's page fetch succeeds
with a non-redirect, non-error status, the whole run aborts with the
uncaught `TypeError`. -/
theorem c3_call_arity_aborts :
    (∀ (env : Env) (fuel : Nat) (s e : Int) (l : List (Int × Outcome))
        (p : Int × Outcome),
        (pyMain env fuel s e).1 = Except.ok (some l) → p ∈ l →
        p.2 ≠ Outcome.saved) ∧
    (∀ (env : Env) (s e : Int) (r : Response) (fuel : Nat),
        env 0 = TransportResult.ok r → r.is_redirect = false →
        r.status_code < 400 → s ≤ e →
        (pyMain env (fuel + 1) s e).1 = Except.error PyError.typeError) := by
  constructor
  · intro env fuel s e l p h hp
    exact runIds_not_saved (idRange s e) env fuel initSt l h p hp
  · intro env s e r fuel h0 hr hs hse
    have h4 : ¬ (400 ≤ r.status_code ∧ r.status_code < 600) := by omega
    unfold pyMain
    rw [idRange_cons hse]
    have hb := @bookLoop_extract_abort env initSt r s fuel h0 h4 hr
    simp only [runIds, mbind, hb]

/-- C3 (witness): on an environment of plain 200 pages the run over [1, 1]
aborts with `TypeError`; and the one outcome of an all-redirect run is not
`saved`. -/
theorem c3_call_arity_aborts_witness :
    (pyMain envAllOk 3 1 1).1 = Except.error PyError.typeError ∧
    ((1, Outcome.skipped pageNotFoundMsg) : Int × Outcome).2 ≠ Outcome.saved := by
  constructor
  · exact c3_call_arity_aborts.2 envAllOk 1 1 (respOk 1) 2 rfl rfl (by decide)
      (by decide)
  · exact c3_call_arity_aborts.1 redirectEnv 2 1 1
      [(1, Outcome.skipped pageNotFoundMsg)] (1, Outcome.skipped pageNotFoundMsg)
      (by rfl) (by simp)

/-- C4: on every well-formed book page whose h1 text splits on the
non-breaking space into at least three segments, `extract_book_details`
returns a record whose title is segment 0 and whose author is segment 2. -/
theorem c4_title_author :
    ∀ (r : Response) (book_id : Int) (t src : String) (gl : List String),
      r.doc.hasContent = true → r.doc.h1Text = some t →
      3 ≤ (pysplit t nbsp).length →
      r.doc.imgSrc = some src → r.doc.genreSpan = some gl →
      (∀ c ∈ r.doc.commentTexts, 2 ≤ (pysplit c ")").length) →
      ∃ b, extract_book_details r book_id = Except.ok b ∧
        b.title = (pysplit t nbsp).getD 0 "" ∧
        b.author = (pysplit t nbsp).getD 2 "" := by
  intro r book_id t src gl hc ht hlen hi hg hcm
  exact extract_total book_id hc ht hlen hi hg hcm

/-- C4 (witness): the spec's end-to-end page, h1 text
`"Foo Bar Baz"`, parses to title `"Foo"` and author `"Baz"`. -/
theorem c4_title_author_witness :
    ∃ b, extract_book_details (respOk 5) 5 = Except.ok b ∧
      b.title = "Foo" ∧ b.author = "Baz" := by
  obtain ⟨b, hb, ht, ha⟩ := c4_title_author (respOk 5) 5 "Foo\u00A0Bar\u00A0Baz"
    "/files/5/img.jpg" [] rfl rfl (by decide) rfl rfl (by simp [respOk, fooDoc])
  exact ⟨b, hb, ht.trans (by decide), ha.trans (by decide)⟩

/-- C5: a connection failure makes the loop log, sleep 3 seconds, and rerun
the same identifier's iteration; a timeout makes it log and rerun with no
sleep; and on the concrete trace "connection failure, then success" the
identifier is retried (two page requests, one 3-second sleep) — but the run
then aborts with the uncaught `TypeError` of the three-argument extraction
call instead of reaching `Saved`. -/
theorem c5_retry_behavior :
    (∀ (env : Env) (book_id : Int) (st : St) (n : Nat),
        env st.k = TransportResult.connectionFailure →
        bookLoop env book_id (n + 1) st =
          bookLoop env book_id n
            { st with k := st.k + 1, reqs := st.reqs ++ [pageReq book_id],
                      logs := st.logs ++ [connErrMsg],
                      sleeps := st.sleeps ++ [3] }) ∧
    (∀ (env : Env) (book_id : Int) (st : St) (n : Nat),
        env st.k = TransportResult.timeoutFailure →
        bookLoop env book_id (n + 1) st =
          bookLoop env book_id n
            { st with k := st.k + 1, reqs := st.reqs ++ [pageReq book_id],
                      logs := st.logs ++ [timeoutMsg] }) ∧
    (pyMain c5env 3 1 1).2.sleeps = [3] ∧
    (pyMain c5env 3 1 1).2.reqs = [pageReq 1, pageReq 1] ∧
    (pyMain c5env 3 1 1).1 = Except.error PyError.typeError := by
  refine ⟨?_, ?_, by rfl, by rfl, by rfl⟩
  · intro env book_id st n h
    exact bookLoop_conn book_id n h
  · intro env book_id st n h
    exact bookLoop_timeout book_id n h

/-- C5 (witness): the retry equations instantiated on concrete
environments that fail once and then succeed. -/
theorem c5_retry_behavior_witness :
    bookLoop c5env 1 2 initSt =
      bookLoop c5env 1 1
        { initSt with k := 1, reqs := [pageReq 1], logs := [connErrMsg],
                      sleeps := [3] } ∧
    bookLoop c5tenv 1 2 initSt =
      bookLoop c5tenv 1 1
        { initSt with k := 1, reqs := [pageReq 1], logs := [timeoutMsg] } := by
  constructor
  · exact c5_retry_behavior.1 c5env 1 initSt 1 rfl
  · exact c5_retry_behavior.2.1 c5tenv 1 initSt 1 rfl

/-- C6: over the range [1, 2] with every page fetch succeeding, the run
does not produce one outcome per identifier in order — it aborts with the
uncaught `TypeError` during identifier 1 and never prints a success. -/
theorem c6_range_abort :
    idRange 1 2 = [1, 2] ∧
    (pyMain envAllOk 3 1 2).1 = Except.error PyError.typeError ∧
    (pyMain envAllOk 3 1 2).2.outputs = [] := by
  exact ⟨by decide, by rfl, by rfl⟩

/-- C7 (counterexample): the spec's own scenario — cover src
`/files/5/img.jpg` on the page of book 5 — resolves to an absolute URL
whose path's last segment is `img.jpg`, yet `download_book_cover` stores
the file as `images/5`: the code takes component index 2 of the path split
on `/`, not the last segment. -/
theorem c7_counterexample :
    urljoin (pageUrl 5) "/files/5/img.jpg" =
      "https://tululu.org/files/5/img.jpg" ∧
    urlsplit_path "https://tululu.org/files/5/img.jpg" = "/files/5/img.jpg" ∧
    (pysplit "/files/5/img.jpg" "/").getLast? = some "img.jpg" ∧
    (download_book_cover envAllOk "/files/5/img.jpg" "images"
        "https://tululu.org/files/5/img.jpg" initSt).1 = Except.ok "images/5" ∧
    ("images/5" : String) ≠ "images/img.jpg" := by
  refine ⟨by decide, by decide, by decide, by rfl, by decide⟩

/-- C7 (amended): the saved cover's file name is the component at index 2
of the cover URL's path split on `/` — which equals the last path segment
exactly when the path has two segments, as tululu's `/shots/N.jpg` covers
do. -/
theorem c7_cover_filename :
    ∀ (env : Env) (st : St) (img_path dir u : String) (r : Response)
      (seg : String),
      env st.k = TransportResult.ok r →
      ¬ (400 ≤ r.status_code ∧ r.status_code < 600) →
      (pysplit img_path "/").get? 2 = some seg →
      download_book_cover env img_path dir u st =
        (Except.ok (os_path_join dir seg),
          { st with k := st.k + 1, reqs := st.reqs ++ [⟨u, none, true⟩],
                    fs := fsWrite st.fs (os_path_join dir seg) r.content }) := by
  intro env st img_path dir u r seg h h4 hseg
  have hseg2 : (pysplit img_path "/")[2]? = some seg := by
    rw [← List.get?_eq_getElem?]
    exact hseg
  simp [download_book_cover, mbind, requests_get, Response.raise_for_status,
    mthrow, mpure, pyGet, h, h4, hseg2]

/-- C7 (witness): instantiating the amended statement on the two-segment
cover path `/shots/1.jpg`, stored as `images/1.jpg`. -/
theorem c7_cover_filename_witness :
    download_book_cover envAllOk "/shots/1.jpg" "images"
        "https://tululu.org/shots/1.jpg" initSt =
      (Except.ok (os_path_join "images" "1.jpg"),
        { initSt with
            k := 1,
            reqs := [⟨"https://tululu.org/shots/1.jpg", none, true⟩],
            fs := fsWrite initSt.fs (os_path_join "images" "1.jpg")
              (respOk 1).content }) :=
  c7_cover_filename envAllOk initSt "/shots/1.jpg" "images"
    "https://tululu.org/shots/1.jpg" (respOk 1) "1.jpg" rfl (by decide) (by decide)

/-- C8: saving a book's text writes to the single path
`{dir}/{id}. {title}.txt` with the title verbatim, and saving the same
identifier twice leaves exactly one file at that path, holding the content
of the last write. -/
theorem c8_save_overwrite :
    ∀ (dir title : String) (r1 r2 : Response) (book_id : Int) (st : St),
      (save_book_text dir title r1 book_id st).1 =
        Except.ok (dir ++ "/" ++ toString book_id ++ ". " ++ title ++ ".txt") ∧
      ((save_book_text dir title r2 book_id
          (save_book_text dir title r1 book_id st).2).2).fs.filter
          (fun e =>
            e.1 == dir ++ "/" ++ toString book_id ++ ". " ++ title ++ ".txt") =
        [(dir ++ "/" ++ toString book_id ++ ". " ++ title ++ ".txt",
          r2.content)] := by
  intro dir title r1 r2 book_id st
  refine ⟨rfl, ?_⟩
  simp [save_book_text, fsWrite, List.filter_append, List.filter_filter, bne]

/-- C9 (counterexample): the cover-image fetch is recorded with
`allow_redirects = true` — the call at line 156 passes no
`allow_redirects=False`, so the requests default applies and redirects are
followed, contradicting "every transport request is issued without
automatically following redirects". -/
theorem c9_counterexample :
    (download_book_cover envAllOk "/shots/1.jpg" "images"
        "https://tululu.org/shots/1.jpg" initSt).2.reqs =
      [⟨"https://tululu.org/shots/1.jpg", none, true⟩] ∧
    (⟨"https://tululu.org/shots/1.jpg", none, true⟩ : Request).allow_redirects
      = true := by
  exact ⟨rfl, rfl⟩

/-- C9 (amended): the book-page and text-download fetches (both through
`request_for_book`) are always issued with `allow_redirects=False`, while
the cover-image fetch is always issued with the requests default and
follows redirects. -/
theorem c9_fetch_flags :
    (∀ (env : Env) (url : String) (q : Option Int) (msg : String) (st : St),
        (request_for_book env url q msg st).2.reqs =
          st.reqs ++ [⟨url, q, false⟩]) ∧
    (∀ (env : Env) (img_path dir u : String) (st : St),
        (download_book_cover env img_path dir u st).2.reqs =
          st.reqs ++ [⟨u, none, true⟩]) := by
  constructor
  · intro env url q msg st
    rcases h : env st.k with r | hc | ht
    · by_cases h4 : 400 ≤ r.status_code ∧ r.status_code < 600 <;>
        simp [request_for_book, requests_get, Response.raise_for_status,
          mbind, mthrow, mpure, h, h4]
    · simp [request_for_book, requests_get, mbind, h]
    · simp [request_for_book, requests_get, mbind, h]
  · intro env img_path dir u st
    rcases h : env st.k with r | hc | ht
    · by_cases h4 : 400 ≤ r.status_code ∧ r.status_code < 600
      · simp [download_book_cover, requests_get, Response.raise_for_status,
          mbind, mthrow, mpure, h, h4]
      · rcases hseg : pyGet (pysplit img_path "/") 2 with e | seg <;>
          simp [download_book_cover, requests_get, Response.raise_for_status,
            mbind, mthrow, mpure, h, h4, hseg]
    · simp [download_book_cover, requests_get, mbind, h]
    · simp [download_book_cover, requests_get, mbind, h]

/-- C10 (counterexample): a page whose h1 text begins with the separator
yields a constructed record whose title is the empty string — the
"non-empty title" invariant does not hold. -/
theorem c10_counterexample :
    (extract_book_details c10resp 9).toOption.map (fun b => b.title) =
      some "" ∧
    (extract_book_details c10resp 9).toOption.map (fun b => b.author) =
      some "Baz" := by
  exact ⟨rfl, rfl⟩

/-- C10 (amended): a constructed record's title and author are exactly
segments 0 and 2 of the h1 text — either may be empty — and every
metadata-extraction attempt of the per-identifier workflow is made on a
page response that passed the HTTP status check and was not classified a
redirect. -/
theorem c10_record_fields :
    (∀ (r : Response) (book_id : Int) (t : String) (b : Book),
        r.doc.h1Text = some t →
        extract_book_details r book_id = Except.ok b →
        b.title = (pysplit t nbsp).getD 0 "" ∧
        b.author = (pysplit t nbsp).getD 2 "") ∧
    (∀ (n : Nat) (env : Env) (book_id : Int) (st : St),
        ∃ l, (bookLoop env book_id n st).2.extracts = st.extracts ++ l ∧
          ∀ p ∈ l, p.2.is_redirect = false ∧
            ¬ (400 ≤ p.2.status_code ∧ p.2.status_code < 600)) := by
  constructor
  · intro r book_id t b ht h
    obtain ⟨-, h1, h2⟩ := extract_ok_title_author ht h
    exact ⟨h1, h2⟩
  · exact bookLoop_extracts

/-- C10 (witness): the empty-title page instantiates the field equations,
and the trace property holds on a concrete one-step loop. -/
theorem c10_record_fields_witness :
    (c10book.title = (pysplit " Bar Baz" nbsp).getD 0 "" ∧
      c10book.author = (pysplit " Bar Baz" nbsp).getD 2 "") ∧
    ∃ l, (bookLoop envAllOk 1 1 initSt).2.extracts = initSt.extracts ++ l ∧
      ∀ p ∈ l, p.2.is_redirect = false ∧
        ¬ (400 ≤ p.2.status_code ∧ p.2.status_code < 600) := by
  constructor
  · exact c10_record_fields.1 c10resp 9 " Bar Baz" c10book rfl rfl
  · exact c10_record_fields.2 1 envAllOk 1 initSt

end BookParser
